import Mathlib

/-!
Verification of the OpenAirplay GUI coordinator (`openairplay/gui_main.py`).

The development shallowly embeds the state and operations of the `Window`
class that the specification's claims are about:

* the device selection list (`deviceSelectList`), a list of entries each
  carrying a displayed text and an optional attached receiver object
  (Qt `UserRole` data);
* `add_receiver` / `remove_receiver`, the discovery callbacks that append
  and delete list entries;
* `start_mirroring_to_selection`, which validates the selection and either
  raises, returns early, or constructs and schedules a mirroring client;
* `Window.quit`, modelled as the ordered trace of the actions it performs;
* the two persisted boolean preferences and their toggle handlers, plus the
  ordered trace of settings reads performed during `Window.__init__`.

Python exceptions are modelled with `Except`: a `raise` is `Except.error`.
-/

namespace OpenAirplay

/-- Sentinel display name, `AIRPLAY_NO_DISPLAY_NAME = "No display."` in the
source. -/
def AIRPLAY_NO_DISPLAY_NAME : String := "No display."

/-- A discovered receiver (`AirplayReceiver`): the fields of the object that
`gui_main.py` reads are its `name` and its `list_entry_name`. -/
structure AirplayReceiver where
  name : String
  list_entry_name : String
deriving DecidableEq, Repr

/-- One `QListWidgetItem` of `deviceSelectList`: its displayed `text` and the
receiver stored under `Qt.ItemDataRole.UserRole` (`none` for the sentinel
item, which is created without data). -/
structure ListEntry where
  text : String
  data : Option AirplayReceiver
deriving DecidableEq, Repr

/-- The mirroring client (`OpenAirPlayMirroringClient(target_device)`); the
target is the `UserRole` data of the selected item, which can be `None`. -/
structure OpenAirPlayMirroringClient where
  target : Option AirplayReceiver
deriving DecidableEq, Repr

/-- The mutable state of `Window` that the claims concern: the device list,
`_active_mirroring_client`, and `_active_mirroring` (the scheduled task,
identified by the client whose `start()` it runs). -/
structure WindowState where
  deviceSelectList : List ListEntry
  active_mirroring_client : Option OpenAirPlayMirroringClient
  active_mirroring : Option OpenAirPlayMirroringClient
deriving DecidableEq, Repr

/-- The sentinel list item `deviceSelectListNoDisplayItem`, created with text
`AIRPLAY_NO_DISPLAY_NAME` and no `UserRole` data. -/
def sentinelEntry : ListEntry := ⟨AIRPLAY_NO_DISPLAY_NAME, none⟩

/-- Device list as built by `createDeviceListGroupBox`: the sentinel item is
the single initial entry. -/
def createDeviceListGroupBox : List ListEntry := [sentinelEntry]

/-- Window state right after construction: sentinel-only device list, no
mirroring client, no mirroring task. -/
def initialWindowState : WindowState := ⟨createDeviceListGroupBox, none, none⟩

/-- `Window.add_receiver`: builds an item with text `receiver.list_entry_name`
and the receiver as `UserRole` data, and appends it with `addItem`. -/
def add_receiver (r : AirplayReceiver) (l : List ListEntry) : List ListEntry :=
  l ++ [⟨r.list_entry_name, some r⟩]

/-- `deviceSelectList.findItems(name, MatchExactly)`: the items whose
displayed text equals `name`, in list order. -/
def findItems (l : List ListEntry) (name : String) : List ListEntry :=
  l.filter (fun e => e.text == name)

/-- `deviceSelectList.takeItem(deviceSelectList.row(x))`: removes the first
occurrence of the item `x` from the list. -/
def takeItem (l : List ListEntry) (x : ListEntry) : List ListEntry :=
  match l with
  | [] => []
  | e :: t => if e = x then t else e :: takeItem t x

/-- `Window.remove_receiver`: looks up every item whose text equals
`receiver.list_entry_name` with `findItems`, then takes each of them out of
the list in turn. -/
def remove_receiver (r : AirplayReceiver) (l : List ListEntry) : List ListEntry :=
  (findItems l r.list_entry_name).foldl takeItem l

/-- Exceptions `start_mirroring_to_selection` can raise: the explicit
`raise NotImplementedError(...)` for a multi-selection, and the
`AttributeError` that reading `.text()` of a null item would produce. -/
inductive StartError where
  | notImplementedError : String → StartError
  | nullItem : StartError
deriving DecidableEq, Repr

/-- Normal outcomes of `start_mirroring_to_selection`: the early `return`
after the no-selection warning, the early `return` on the sentinel entry
(the TODO stop branch), or the construction and scheduling of a client. -/
inductive StartOutcome where
  | noSelection : StartOutcome
  | stopRequest : StartOutcome
  | started : OpenAirPlayMirroringClient → StartOutcome
deriving DecidableEq, Repr

/-- `Window.start_mirroring_to_selection`, taking the selected row indices.
Faithful to the source: more than one selection raises
`NotImplementedError`; an empty selection warns and returns; a selected item
whose text equals `AIRPLAY_NO_DISPLAY_NAME` logs a TODO warning and returns
with the state untouched; otherwise a client for the item's `UserRole` data
is stored in `_active_mirroring_client` and its `start()` is scheduled with
`asyncio.ensure_future` into `_active_mirroring`, with no check of any
previously active client. -/
def start_mirroring_to_selection (s : WindowState) (selected : List Nat) :
    Except StartError (StartOutcome × WindowState) :=
  if selected.length > 1 then
    .error (.notImplementedError "Cannot mirror to more than one display.")
  else
    match selected with
    | [] => .ok (.noSelection, s)
    | i :: _ =>
      match s.deviceSelectList[i]? with
      | none => .error .nullItem
      | some entry =>
        if entry.text = AIRPLAY_NO_DISPLAY_NAME then
          .ok (.stopRequest, s)
        else
          let client : OpenAirPlayMirroringClient := ⟨entry.data⟩
          .ok (.started client,
            { s with active_mirroring_client := some client,
                     active_mirroring := some client })

/-- Vocabulary of actions for the shutdown path: the four the source
performs, plus the stop/await actions the specification requires, so that
their absence from the trace is expressible. -/
inductive QuitAction where
  | deleteSettings : QuitAction
  | scheduleListenerQuit : QuitAction
  | requestSessionStop : QuitAction
  | awaitSessionSettled : QuitAction
  | awaitListenerTermination : QuitAction
  | stopLoop : QuitAction
  | sysExit : QuitAction
deriving DecidableEq, Repr

/-- Ordered trace of `Window.quit(reason)`: `del self.settings`, then
`asyncio.ensure_future(self.service_listener.quit())` (scheduled, never
awaited), then `asyncio.get_running_loop().stop()`, then `sys.exit(reason)`.
The exit reason is passed straight to `sys.exit` and plays no further role. -/
def Window.quit : List QuitAction :=
  [.deleteSettings, .scheduleListenerQuit, .stopLoop, .sysExit]

/-- The two persisted preference keys used by `gui_main.py`. -/
inductive SettingsKey where
  | systrayicon : SettingsKey
  | promptOnClose_systray : SettingsKey
deriving DecidableEq, Repr

/-- Ordered trace of `settings.value(...)` reads during `Window.__init__`:
`createIconGroupBox` reads `systrayicon` for `setChecked` and again for the
`print`, then `promptOnClose_systray` for `setChecked` and again for the
`print`; later `__init__` reads `systrayicon` once more for the
tray-visibility check. -/
def startupSettingsReads : List SettingsKey :=
  [.systrayicon, .systrayicon,
   .promptOnClose_systray, .promptOnClose_systray,
   .systrayicon]

/-- `Window.setSystrayClosePrompt`: stores the toggled boolean under
`promptOnClose_systray`, unchanged. -/
def setSystrayClosePrompt (settings : SettingsKey → Bool) (preference : Bool) :
    SettingsKey → Bool :=
  fun k => if k = SettingsKey.promptOnClose_systray then preference else settings k

/-- `Window.trayIconVisible`: stores the toggled boolean under
`systrayicon`, unchanged (it also flips the tray icon's visibility, outside
this model). -/
def trayIconVisible (settings : SettingsKey → Bool) (preference : Bool) :
    SettingsKey → Bool :=
  fun k => if k = SettingsKey.systrayicon then preference else settings k

/-! Concrete fixtures used by counterexamples and witnesses. -/

/-- A discovered receiver used as the target of an existing session. -/
def oldTV : AirplayReceiver := ⟨"Old TV", "Old TV (AirPlay)"⟩

/-- A second discovered receiver, selected while the first one's session is
still active. -/
def newTV : AirplayReceiver := ⟨"New TV", "New TV (AirPlay)"⟩

/-- A window state with both receivers listed and a mirroring session to
`oldTV` already active (client stored and task scheduled). -/
def busyState : WindowState :=
  ⟨createDeviceListGroupBox ++
     [⟨oldTV.list_entry_name, some oldTV⟩, ⟨newTV.list_entry_name, some newTV⟩],
   some ⟨some oldTV⟩, some ⟨some oldTV⟩⟩

/-- A receiver with a mirroring session active, for the sentinel-stop
scenario. -/
def livingRoom : AirplayReceiver := ⟨"Living Room", "Living Room (AirPlay)"⟩

/-- A window state with an active session to `livingRoom`. -/
def c4ActiveState : WindowState :=
  ⟨createDeviceListGroupBox ++ [⟨livingRoom.list_entry_name, some livingRoom⟩],
   some ⟨some livingRoom⟩, some ⟨some livingRoom⟩⟩

/-- Two distinct receivers that share one displayed name. -/
def tvA : AirplayReceiver := ⟨"TV A", "Shared Name"⟩

/-- Second receiver with the same displayed name as `tvA`. -/
def tvB : AirplayReceiver := ⟨"TV B", "Shared Name"⟩

/-- A real discovered receiver whose displayed name happens to equal the
sentinel string `AIRPLAY_NO_DISPLAY_NAME`. -/
def phantom : AirplayReceiver := ⟨"Phantom TV", "No display."⟩

/-- A window state where `phantom` has been discovered and added after the
sentinel entry. -/
def c10State : WindowState :=
  ⟨add_receiver phantom createDeviceListGroupBox, none, none⟩

/-! Helper lemmas. -/

theorem takeItem_cons_ne (a x : ListEntry) (t : List ListEntry) (h : a ≠ x) :
    takeItem (a :: t) x = a :: takeItem t x := by
  simp [takeItem, h]

theorem foldl_takeItem_cons_notin (a : ListEntry) (L : List ListEntry) :
    ∀ t, (∀ x ∈ L, a ≠ x) →
      L.foldl takeItem (a :: t) = a :: L.foldl takeItem t := by
  induction L with
  | nil => intro t _; rfl
  | cons x L ih =>
    intro t h
    rw [List.foldl_cons, List.foldl_cons,
      takeItem_cons_ne a x t (h x (List.mem_cons_self x L))]
    exact ih (takeItem t x) fun y hy => h y (List.mem_cons_of_mem x hy)

theorem foldl_takeItem_filter (name : String) (l : List ListEntry) :
    (l.filter (fun e => e.text == name)).foldl takeItem l
      = l.filter (fun e => e.text != name) := by
  induction l with
  | nil => rfl
  | cons a t ih =>
    by_cases ha : a.text = name
    · have h3 : takeItem (a :: t) a = t := by simp [takeItem]
      simp [List.filter_cons, ha, h3, ih]
    · have hn : ∀ x ∈ t.filter (fun e => e.text == name), a ≠ x := by
        intro x hx hax
        have hxname : x.text = name := by
          simpa using List.of_mem_filter hx
        exact ha (by rw [hax]; exact hxname)
      simp [List.filter_cons, ha, foldl_takeItem_cons_notin a _ t hn, ih]

/-- The net effect of `remove_receiver` is to drop exactly the entries whose
displayed text equals the receiver's `list_entry_name`. -/
theorem remove_receiver_eq_filter (r : AirplayReceiver) (l : List ListEntry) :
    remove_receiver r l = l.filter (fun e => e.text != r.list_entry_name) := by
  unfold remove_receiver findItems
  exact foldl_takeItem_filter r.list_entry_name l

theorem foldl_add_receiver (rs : List AirplayReceiver) :
    ∀ init, rs.foldl (fun l r => add_receiver r l) init
      = init ++ rs.map (fun r => ⟨r.list_entry_name, some r⟩) := by
  induction rs with
  | nil => intro init; simp
  | cons r rs ih =>
    intro init
    rw [List.foldl_cons, ih (add_receiver r init), List.map_cons]
    simp [add_receiver]

theorem start_length_gt_one (s : WindowState) (sel : List Nat)
    (h : sel.length > 1) :
    start_mirroring_to_selection s sel =
      .error (.notImplementedError "Cannot mirror to more than one display.") := by
  unfold start_mirroring_to_selection
  rw [if_pos h]

theorem start_nil (s : WindowState) :
    start_mirroring_to_selection s [] = .ok (.noSelection, s) := rfl

/-! Claims. -/

/-- Claim C1 counterexample: with a session to `oldTV` already active,
requesting start on the valid single selection of `newTV`'s row does not
fail with any busy condition — it succeeds with a `started` outcome and the
stored client afterwards is the new one, so the existing session object is
replaced rather than left unchanged. -/
theorem c1_counterexample :
    busyState.active_mirroring_client = some ⟨some oldTV⟩ ∧
    (start_mirroring_to_selection busyState [2]).toOption.map
        (fun p => p.1) = some (.started ⟨some newTV⟩) ∧
    (start_mirroring_to_selection busyState [2]).toOption.map
        (fun p => p.2.active_mirroring_client) = some (some ⟨some newTV⟩) :=
  ⟨rfl, rfl, rfl⟩

/-- Claim C1 (amended): `start_mirroring_to_selection` performs no busy
check at all. For every window state and every valid single selection of a
non-sentinel entry, it unconditionally constructs a client for the entry's
attached receiver and stores and schedules it, overwriting whatever
`_active_mirroring_client` / `_active_mirroring` previously held. -/
theorem c1_amended (s : WindowState) (i : Nat) (entry : ListEntry)
    (hget : s.deviceSelectList[i]? = some entry)
    (hname : entry.text ≠ AIRPLAY_NO_DISPLAY_NAME) :
    start_mirroring_to_selection s [i] =
      .ok (.started ⟨entry.data⟩,
        { s with active_mirroring_client := some ⟨entry.data⟩,
                 active_mirroring := some ⟨entry.data⟩ }) := by
  unfold start_mirroring_to_selection
  simp [hget, hname]

/-- Claim C1 witness: the amended statement evaluated on `busyState` with
`newTV`'s row selected. -/
theorem c1_amended_witness :
    busyState.deviceSelectList[2]? = some ⟨newTV.list_entry_name, some newTV⟩ ∧
    (⟨newTV.list_entry_name, some newTV⟩ : ListEntry).text ≠ AIRPLAY_NO_DISPLAY_NAME ∧
    start_mirroring_to_selection busyState [2] =
      .ok (.started ⟨some newTV⟩,
        { busyState with active_mirroring_client := some ⟨some newTV⟩,
                         active_mirroring := some ⟨some newTV⟩ }) :=
  ⟨by decide, by decide,
   c1_amended busyState 2 ⟨newTV.list_entry_name, some newTV⟩ (by decide) (by decide)⟩

/-- Claim C2 counterexample: the shutdown trace of `Window.quit` never
awaits the Discovery Listener's termination and never requests a stop of
the active session, so the claimed ordering (await settling, await
termination, only then stop the scheduler) is violated. -/
theorem c2_counterexample :
    QuitAction.awaitListenerTermination ∉ Window.quit ∧
    QuitAction.requestSessionStop ∉ Window.quit := by decide

/-- Claim C2 (amended): `Window.quit` schedules the Discovery Listener's
quit coroutine before stopping the event loop, and stops the event loop
before exiting the process, but it never requests a stop of the active
session, never awaits its settling, and never awaits the listener's
termination — the listener quit is fire-and-forget. -/
theorem c2_amended :
    QuitAction.requestSessionStop ∉ Window.quit ∧
    QuitAction.awaitSessionSettled ∉ Window.quit ∧
    QuitAction.awaitListenerTermination ∉ Window.quit ∧
    Window.quit.indexOf QuitAction.scheduleListenerQuit <
      Window.quit.indexOf QuitAction.stopLoop ∧
    Window.quit.indexOf QuitAction.stopLoop <
      Window.quit.indexOf QuitAction.sysExit := by
  decide

/-- Claim C3 counterexample: with two rows selected the call does not
return a reported, non-fatal condition — it raises `NotImplementedError`. -/
theorem c3_counterexample :
    start_mirroring_to_selection initialWindowState [0, 1] =
      .error (.notImplementedError "Cannot mirror to more than one display.") := rfl

/-- Claim C3 (amended): for every selection with more than one entry,
`start_mirroring_to_selection` raises `NotImplementedError` (an exception,
not a reported UI condition); no session is created and no state is
mutated, since the raise happens before any assignment. -/
theorem c3_amended (s : WindowState) (sel : List Nat) (h : sel.length > 1) :
    start_mirroring_to_selection s sel =
      .error (.notImplementedError "Cannot mirror to more than one display.") :=
  start_length_gt_one s sel h

/-- Claim C3 witness: the amended statement evaluated on a two-row
selection. -/
theorem c3_amended_witness :
    ([0, 1] : List Nat).length > 1 ∧
    start_mirroring_to_selection busyState [0, 1] =
      .error (.notImplementedError "Cannot mirror to more than one display.") :=
  ⟨by decide, c3_amended busyState [0, 1] (by decide)⟩

/-- Claim C4: the code evaluated at the failing input. With a session to
`livingRoom` active and the sentinel row selected, the call returns the
TODO stop branch with the window state verbatim unchanged: the session is
not transitioned to `Stopping`/`Idle`, contradicting the documented stop
behaviour (the source itself marks the branch `TODO stop mirroring`). -/
theorem c4_code_eval :
    c4ActiveState.active_mirroring_client = some ⟨some livingRoom⟩ ∧
    start_mirroring_to_selection c4ActiveState [0] =
      .ok (.stopRequest, c4ActiveState) :=
  ⟨rfl, rfl⟩

/-- Claim C5: for every selection with zero or at least two entries,
`start_mirroring_to_selection` never creates a session — every successful
return leaves the state unchanged, and no return is a `started` outcome,
so no client is constructed and no task is scheduled. -/
theorem c5_no_session (s : WindowState) (sel : List Nat) (h : sel.length ≠ 1) :
    (∀ o s2, start_mirroring_to_selection s sel = .ok (o, s2) → s2 = s) ∧
    (∀ c s2, start_mirroring_to_selection s sel ≠ .ok (.started c, s2)) := by
  match sel with
  | [] =>
    constructor
    · intro o s2 hok
      rw [start_nil s] at hok
      simp at hok
      exact hok.2.symm
    · intro c s2 hok
      rw [start_nil s] at hok
      simp at hok
  | [i] => exact absurd rfl h
  | a :: b :: t =>
    have hlen : (a :: b :: t).length > 1 := by
      simp [List.length_cons]
    constructor
    · intro o s2 hok
      rw [start_length_gt_one s _ hlen] at hok
      simp at hok
    · intro c s2 hok
      rw [start_length_gt_one s _ hlen] at hok
      simp at hok

/-- Claim C5 witness: the empty selection on the initial window state,
instantiated at the client a sentinel-less entry would have produced. -/
theorem c5_witness :
    ([] : List Nat).length ≠ 1 ∧
    start_mirroring_to_selection initialWindowState [] ≠
      .ok (.started ⟨none⟩, initialWindowState) :=
  ⟨by decide,
   (c5_no_session initialWindowState [] (by decide)).2 ⟨none⟩ initialWindowState⟩

/-- Claim C6: delivering `receiver_added r` immediately followed by
`receiver_removed r` (processed in that order, as the sequential
composition) leaves the device list without `r`'s identity: no remaining
entry carries `r` as data and none carries its displayed name. The
hypothesis states the list invariant that entries holding `r` as data
display `r.list_entry_name`, which `add_receiver` itself maintains. -/
theorem c6_round_trip (r : AirplayReceiver) (l : List ListEntry)
    (hwf : ∀ e ∈ l, e.data = some r → e.text = r.list_entry_name) :
    (remove_receiver r (add_receiver r l)).all
      (fun e => e.data != some r && e.text != r.list_entry_name) = true := by
  rw [remove_receiver_eq_filter, List.all_eq_true]
  intro e he
  have hp := List.of_mem_filter he
  have hm : e ∈ add_receiver r l := List.mem_of_mem_filter he
  have htext : e.text ≠ r.list_entry_name := by simpa using hp
  have hdata : e.data ≠ some r := by
    intro hd
    have hm2 : e ∈ l ∨ e = ⟨r.list_entry_name, some r⟩ := by
      simpa [add_receiver] using hm
    rcases hm2 with hl | hr
    · exact htext (hwf e hl hd)
    · rw [hr] at htext
      exact htext rfl
  simp only [Bool.and_eq_true, bne_iff_ne, ne_eq]
  exact ⟨hdata, htext⟩

/-- Claim C6 witness: the round trip for `oldTV` on a list that already
contains the sentinel and an entry for `oldTV`. -/
theorem c6_witness :
    (∀ e ∈ [sentinelEntry, (⟨oldTV.list_entry_name, some oldTV⟩ : ListEntry)],
        e.data = some oldTV → e.text = oldTV.list_entry_name) ∧
    (remove_receiver oldTV
        (add_receiver oldTV
          [sentinelEntry, ⟨oldTV.list_entry_name, some oldTV⟩])).all
      (fun e => e.data != some oldTV && e.text != oldTV.list_entry_name) = true :=
  ⟨by decide,
   c6_round_trip oldTV [sentinelEntry, ⟨oldTV.list_entry_name, some oldTV⟩]
     (by decide)⟩

/-- Claim C7 counterexample: neither preference is read exactly once during
startup — `systrayicon` is read three times and `promptOnClose_systray`
twice in the `__init__` trace. -/
theorem c7_counterexample :
    startupSettingsReads.count SettingsKey.systrayicon ≠ 1 ∧
    startupSettingsReads.count SettingsKey.promptOnClose_systray ≠ 1 := by
  decide

/-- Claim C7 (amended): the two preferences are read from persisted
settings several times at startup (`systrayicon` three times,
`promptOnClose_systray` twice), and each toggle handler writes the toggled
boolean back under its key unchanged — the value is passed through without
further interpretation. -/
theorem c7_amended (settings : SettingsKey → Bool) (b : Bool) :
    setSystrayClosePrompt settings b SettingsKey.promptOnClose_systray = b ∧
    trayIconVisible settings b SettingsKey.systrayicon = b ∧
    startupSettingsReads.count SettingsKey.systrayicon = 3 ∧
    startupSettingsReads.count SettingsKey.promptOnClose_systray = 2 :=
  ⟨rfl, rfl, by decide, by decide⟩

/-- Claim C8: `remove_receiver r` removes exactly the entries whose
displayed text equals `r.list_entry_name` (it filters by name, not by
identity); consequently, when two receivers share a displayed name,
removing one leaves no entry displaying the other's name either. -/
theorem c8_remove_by_name (r1 r2 : AirplayReceiver) (l : List ListEntry)
    (hshare : r1.list_entry_name = r2.list_entry_name) :
    remove_receiver r1 l = l.filter (fun e => e.text != r1.list_entry_name) ∧
    (remove_receiver r1 l).all (fun e => e.text != r2.list_entry_name) = true := by
  refine ⟨remove_receiver_eq_filter r1 l, ?_⟩
  rw [remove_receiver_eq_filter, List.all_eq_true]
  intro e he
  have hp := List.of_mem_filter he
  simpa [← hshare] using hp

/-- Claim C8 witness: removing `tvA` from a list holding entries for both
`tvA` and `tvB` (same displayed name) removes `tvB`'s entry as well. -/
theorem c8_witness :
    tvA.list_entry_name = tvB.list_entry_name ∧
    (remove_receiver tvA
        [sentinelEntry, ⟨tvA.list_entry_name, some tvA⟩,
         ⟨tvB.list_entry_name, some tvB⟩]).all
      (fun e => e.text != tvB.list_entry_name) = true :=
  ⟨rfl,
   (c8_remove_by_name tvA tvB
     [sentinelEntry, ⟨tvA.list_entry_name, some tvA⟩,
      ⟨tvB.list_entry_name, some tvB⟩] rfl).2⟩

/-- Claim C9: starting from the list built at construction, every sequence
of `add_receiver` events yields the sentinel entry at position 0 followed by
the receivers' entries in insertion order. -/
theorem c9_sentinel_first (rs : List AirplayReceiver) :
    rs.foldl (fun l r => add_receiver r l) createDeviceListGroupBox
      = sentinelEntry :: rs.map (fun r => ⟨r.list_entry_name, some r⟩) ∧
    (rs.foldl (fun l r => add_receiver r l) createDeviceListGroupBox)[0]?
      = some sentinelEntry := by
  have h := foldl_add_receiver rs createDeviceListGroupBox
  constructor
  · simpa [createDeviceListGroupBox, sentinelEntry] using h
  · rw [h]
    simp [createDeviceListGroupBox]

/-- Claim C10: a real discovered receiver (`phantom`) whose displayed name
equals the sentinel string sits at row 1 with its receiver object attached,
yet selecting it makes `start_mirroring_to_selection` take the sentinel
stop branch and return unchanged without starting a session, because the
check compares the displayed text, not the identity. -/
theorem c10_sentinel_collision :
    c10State.deviceSelectList[1]? =
      some ⟨AIRPLAY_NO_DISPLAY_NAME, some phantom⟩ ∧
    start_mirroring_to_selection c10State [1] = .ok (.stopRequest, c10State) :=
  ⟨rfl, rfl⟩

end OpenAirplay
